import Mathlib

/-!
Shallow embedding of the geo-sun-scan analysis handler (src/unnamed/part_000),
a single HTTP function that geocodes a postcode, collects obstacles from a
spatial-feature provider, aggregates five years of daily climate samples into
monthly averages, and assembles a response envelope.

Numbers from provider JSON are modelled as rationals; the JavaScript values
null and undefined, which the code distinguishes (the guard is a strict
inequality against null only), are modelled explicitly, as is NaN, which
arises when undefined is summed.
-/

namespace GeoSunScan

/-- The value of a JavaScript indexing expression arr[i] on a JSON array of
numbers and nulls: a number, null (the array holds null at i), or undefined
(i is out of range). -/
inductive JVal3 where
  | val (q : ℚ)
  | vnull
  | vundef
deriving DecidableEq

/-- A value pushed into a month bucket by the handler: a number, or a
poison value (undefined pushed through the strict null guard, or NaN from
dividing undefined by 3600); either poison turns the later sum into NaN. -/
inductive Pushed where
  | pnum (q : ℚ)
  | pbad
deriving DecidableEq

/-- The result of the averaging arithmetic: a number or NaN. -/
inductive JRes where
  | rnum (q : ℚ)
  | rnan
deriving DecidableEq

/-- JavaScript addition during reduce((a, b) => a + b, 0): adding undefined
or NaN yields NaN, and NaN propagates. -/
def addJS : JRes → Pushed → JRes
  | JRes.rnum a, Pushed.pnum b => JRes.rnum (a + b)
  | _, Pushed.pbad => JRes.rnan
  | JRes.rnan, _ => JRes.rnan

/-- data.reduce((a, b) => a + b, 0). -/
def sumJS (l : List Pushed) : JRes := l.foldl addJS (JRes.rnum 0)

/-- Division of the reduce result by the bucket length. -/
def divJS : JRes → ℕ → JRes
  | JRes.rnum a, n => JRes.rnum (a / n)
  | JRes.rnan, _ => JRes.rnan

/-- data.x.length > 0 ? data.x.reduce((a, b) => a + b, 0) / data.x.length : 0. -/
def avgJS (l : List Pushed) : JRes :=
  if 0 < l.length then divJS (sumJS l) l.length else JRes.rnum 0

/-- A parsed daily date: new Date(date).getMonth() gives the zero-based
calendar month; the year is kept to model multi-year pooling. -/
structure DateT where
  year : Int
  month : Fin 12
deriving DecidableEq

/-- One month bucket: { temp: [], precip: [], sun: [] }. -/
structure Bucket where
  temp : List Pushed
  precip : List Pushed
  sun : List Pushed
deriving DecidableEq

/-- monthlyData, keyed by calendar month (the twelve month-name keys are in
bijection with Fin 12); a month never touched holds the empty bucket, which
is what the lookup default supplies. -/
def Bkts : Type := Fin 12 → Bucket

def emptyBucket : Bucket := ⟨[], [], []⟩

def initB : Bkts := fun _ => emptyBucket

/-- The JavaScript array access arr[index] for the index-aligned field
arrays, expressed on the list still to be consumed: head of an exhausted
array is undefined. -/
def jsHead : List (Option ℚ) → JVal3
  | [] => JVal3.vundef
  | some q :: _ => JVal3.val q
  | none :: _ => JVal3.vnull

/-- if (temp !== null) monthlyData[monthName].temp.push(temp): only null is
skipped; undefined passes the strict guard and is pushed as poison. -/
def pushVal (l : List Pushed) : JVal3 → List Pushed
  | JVal3.val q => l ++ [Pushed.pnum q]
  | JVal3.vnull => l
  | JVal3.vundef => l ++ [Pushed.pbad]

/-- if (sun !== null) monthlyData[monthName].sun.push(sun / 3600): the
seconds-to-hours conversion happens before insertion; undefined / 3600 is
NaN, pushed as poison. -/
def pushSun (l : List Pushed) : JVal3 → List Pushed
  | JVal3.val q => l ++ [Pushed.pnum (q / 3600)]
  | JVal3.vnull => l
  | JVal3.vundef => l ++ [Pushed.pbad]

/-- One iteration of the forEach body: push the day's three field values
into the bucket of the day's calendar month. -/
def stepDay (acc : Bkts) (d : DateT) (t p s : JVal3) : Bkts :=
  fun m =>
    if m = d.month then
      ⟨pushVal (acc m).temp t, pushVal (acc m).precip p, pushSun (acc m).sun s⟩
    else acc m

/-- weatherData.daily.time.forEach((date, index) => ...): iterate the date
index with the three field arrays consumed head-first, which coincides with
arr[index] access (the head of an exhausted list is undefined, exactly as an
out-of-range index is). -/
def collect : List DateT → List (Option ℚ) → List (Option ℚ) → List (Option ℚ) → Bkts → Bkts
  | [], _, _, _, acc => acc
  | d :: ds, ts, ps, ss, acc =>
      collect ds ts.tail ps.tail ss.tail (stepDay acc d (jsHead ts) (jsHead ps) (jsHead ss))

/-- The fixed month-name table. -/
def monthNames : List String :=
  ["January", "February", "March", "April", "May", "June", "July", "August",
   "September", "October", "November", "December"]

def monthName (m : Fin 12) : String := monthNames.getD m.val ""

/-- The daily block of the climate payload: weatherData.daily. The time
index may be absent (optional chaining tolerates it); the three field arrays
are index-aligned lists of number-or-null. -/
structure DailyBlock where
  time : Option (List DateT)
  temperature_2m_mean : List (Option ℚ)
  precipitation_sum : List (Option ℚ)
  sunshine_duration : List (Option ℚ)
deriving DecidableEq

/-- One entry of the weather output array. -/
structure MonthlyOut where
  month : String
  temperature_2m_mean : JRes
  precipitation_sum : JRes
  sunshine_duration : JRes
deriving DecidableEq

/-- The buckets after the forEach over the date index
(weatherData.daily?.time?.forEach): an absent daily block or date index is
tolerated by the optional chaining and leaves every bucket empty. -/
def bucketsOf : Option DailyBlock → Bkts
  | none => initB
  | some db =>
    match db.time with
    | none => initB
    | some ts =>
        collect ts db.temperature_2m_mean db.precipitation_sum db.sunshine_duration initB

/-- The whole climate reduction: bucket the daily samples by calendar month,
then map the fixed month table to the three bucket averages. -/
def processWeather (daily : Option DailyBlock) : List MonthlyOut :=
  (List.finRange 12).map (fun m =>
    ⟨monthName m, avgJS ((bucketsOf daily) m).temp, avgJS ((bucketsOf daily) m).precip,
     avgJS ((bucketsOf daily) m).sun⟩)

/-- A center coordinate returned by out center for an area feature. -/
structure Center where
  lat : ℚ
  lon : ℚ
deriving DecidableEq

/-- The tags object of a raw spatial element; each tag is an optional
string value. -/
structure Tags where
  building : Option String
  natural : Option String
  power : Option String
deriving DecidableEq

/-- One raw element of the spatial-provider payload:
{ lat?, lon?, center?, tags? }. -/
structure Element where
  lat : Option ℚ
  lon : Option ℚ
  center : Option Center
  tags : Option Tags
deriving DecidableEq

/-- An obstacle feature position pushed into a category array. -/
structure Feat where
  lat : ℚ
  lon : ℚ
deriving DecidableEq

inductive Cat where
  | building
  | tree
  | pole
deriving DecidableEq

/-- JavaScript truthiness of a possibly-absent number: undefined and 0 are
falsy. -/
def truthyN : Option ℚ → Bool
  | some q => q != 0
  | none => false

/-- JavaScript truthiness of a possibly-absent string: undefined and the
empty string are falsy. -/
def truthyS : Option String → Bool
  | some s => s != ""
  | none => false

/-- The JavaScript or-expression a || b on possibly-absent numbers. -/
def jsOrN (a b : Option ℚ) : Option ℚ := if truthyN a then a else b

/-- element.lat || element.center?.lat. -/
def rLat (e : Element) : Option ℚ := jsOrN e.lat (e.center.map Center.lat)

/-- element.lon || element.center?.lon. -/
def rLon (e : Element) : Option ℚ := jsOrN e.lon (e.center.map Center.lon)

/-- The cascading tag conditionals: element.tags?.building truthy, else
element.tags?.natural === "tree", else element.tags?.power === "pole", else
no category. -/
def tagCascade : Option Tags → Option Cat
  | none => none
  | some tg =>
      if truthyS tg.building then some Cat.building
      else if tg.natural = some "tree" then some Cat.tree
      else if tg.power = some "pole" then some Cat.pole
      else none

/-- The per-element body of the forEach: resolve coordinates, return early
when either resolved coordinate is falsy (if (!elementLat || !elementLon)
return), otherwise classify by the tag cascade. -/
def classify (e : Element) : Option (Cat × ℚ × ℚ) :=
  match rLat e, rLon e with
  | some la, some lo =>
      if la = 0 ∨ lo = 0 then none
      else (tagCascade e.tags).map (fun c => (c, la, lo))
  | _, _ => none

/-- One forEach iteration over the three accumulating category arrays. -/
def pushFeat (acc : List Feat × List Feat × List Feat) (e : Element) :
    List Feat × List Feat × List Feat :=
  match classify e with
  | some (Cat.building, la, lo) => (acc.1 ++ [⟨la, lo⟩], acc.2.1, acc.2.2)
  | some (Cat.tree, la, lo) => (acc.1, acc.2.1 ++ [⟨la, lo⟩], acc.2.2)
  | some (Cat.pole, la, lo) => (acc.1, acc.2.1, acc.2.2 ++ [⟨la, lo⟩])
  | none => acc

/-- overpassData.elements?.forEach(...): an absent elements array yields
three empty category arrays. -/
def processElements (els : Option (List Element)) : List Feat × List Feat × List Feat :=
  match els with
  | none => ([], [], [])
  | some l => l.foldl pushFeat ([], [], [])

/-- buildings.slice(0, 100), trees.slice(0, 100), poles.slice(0, 100). -/
def truncObstacles (o : List Feat × List Feat × List Feat) :
    List Feat × List Feat × List Feat :=
  (o.1.take 100, o.2.1.take 100, o.2.2.take 100)

/-- The bounding box of a geocoder candidate; the four fields model indices
0, 1, 2, 3 of the provider-native array [south, north, west, east], already
parsed to rationals. -/
structure BBox where
  south : ℚ
  north : ℚ
  west : ℚ
  east : ℚ
deriving DecidableEq

inductive EKind where
  | node
  | way
deriving DecidableEq

/-- A tag selector of one query clause: ["k"] or ["k"="v"]. -/
inductive TagFilter where
  | hasTag (k : String)
  | tagEq (k v : String)
deriving DecidableEq

/-- One clause of the composite spatial query: an element kind, a tag
selector, and the interpolated bbox in Overpass order
(south, west, north, east) = (bb[0], bb[2], bb[1], bb[3]). -/
structure Clause where
  kind : EKind
  filter : TagFilter
  south : ℚ
  west : ℚ
  north : ℚ
  east : ℚ
deriving DecidableEq

structure OverpassQuery where
  clauses : List Clause
  outCenter : Bool
deriving DecidableEq

/-- The overpassQuery template: node["building"], way["building"],
node["natural"="tree"], node["power"="pole"], each over the bbox, with
out center. -/
def buildQuery (bb : BBox) : OverpassQuery :=
  ⟨[⟨EKind.node, TagFilter.hasTag "building", bb.south, bb.west, bb.north, bb.east⟩,
    ⟨EKind.way, TagFilter.hasTag "building", bb.south, bb.west, bb.north, bb.east⟩,
    ⟨EKind.node, TagFilter.tagEq "natural" "tree", bb.south, bb.west, bb.north, bb.east⟩,
    ⟨EKind.node, TagFilter.tagEq "power" "pole", bb.south, bb.west, bb.north, bb.east⟩],
   true⟩

/-- An opaque provider polygon geometry (location.geojson), carried through
unchanged when present. -/
structure GeoJson where
  raw : String
deriving DecidableEq

/-- The synthesized fallback polygon:
[[west, south], [east, south], [east, north], [west, north], [west, south]]
with west = bb[2], east = bb[3], south = bb[0], north = bb[1]. -/
def fallbackPolygon (bb : BBox) : List (ℚ × ℚ) :=
  [(bb.west, bb.south), (bb.east, bb.south), (bb.east, bb.north),
   (bb.west, bb.north), (bb.west, bb.south)]

/-- location.geojson || { ...fallback rectangle... }: a present geometry
object is truthy and used unchanged. -/
def selectBoundary (gj : Option GeoJson) (bb : BBox) : GeoJson ⊕ List (ℚ × ℚ) :=
  match gj with
  | some g => Sum.inl g
  | none => Sum.inr (fallbackPolygon bb)

/-- One geocoder candidate: lat and lon already parsed, the bounding box,
and the optional polygon geometry. -/
structure Candidate where
  lat : ℚ
  lon : ℚ
  boundingbox : BBox
  geojson : Option GeoJson
deriving DecidableEq

/-- The spatial-provider payload; the elements array may be absent. -/
structure OverpassPayload where
  elements : Option (List Element)
deriving DecidableEq

/-- The climate-provider payload; the daily block may be absent. -/
structure WeatherPayload where
  daily : Option DailyBlock
deriving DecidableEq

/-- The three provider responses for one request: none models a transport
or non-success HTTP failure (response.ok false, which the handler turns
into a thrown error); some carries the decoded JSON body. The geocoder
body is the candidate array of the provider contract. -/
structure Env where
  geocodeResp : Option (List Candidate)
  overpassResp : Option OverpassPayload
  weatherResp : Option WeatherPayload
deriving DecidableEq

/-- The assembled success envelope. -/
structure AnalysisResult where
  boundary : GeoJson ⊕ List (ℚ × ℚ)
  buildings : List Feat
  trees : List Feat
  poles : List Feat
  weather : List MonthlyOut
deriving DecidableEq

/-- The four observable HTTP outcomes: 400, 404, 500 (thrown errors reach
the catch block), and 200 with the envelope. -/
inductive HResult where
  | badRequest (msg : String)
  | notFound (msg : String)
  | serverError (msg : String)
  | ok (r : AnalysisResult)
deriving DecidableEq

def HResult.is404 : HResult → Bool
  | HResult.notFound _ => true
  | _ => false

/-- A provider call issued by the handler, in issue order. -/
inductive PCall where
  | geocode
  | overpass
  | climate
deriving DecidableEq

/-- if (!postcode): the postcode field is falsy when absent or the empty
string. -/
def blankPost : Option String → Bool
  | none => true
  | some s => s == ""

/-- The serve handler body, from postcode validation to the response,
returning the HTTP outcome together with the list of provider calls
issued. Each stage checks response.ok (none here) and throws, reaching the
catch block as a 500; the geocoder's empty candidate array returns 404
before any further stage runs. -/
def handle (post : Option String) (env : Env) : HResult × List PCall :=
  if blankPost post then (HResult.badRequest "Postcode is required", [])
  else
    match env.geocodeResp with
    | none => (HResult.serverError "Nominatim API error", [PCall.geocode])
    | some [] => (HResult.notFound "Postcode not found", [PCall.geocode])
    | some (c :: _) =>
      match env.overpassResp with
      | none => (HResult.serverError "Overpass API error", [PCall.geocode, PCall.overpass])
      | some op =>
        match env.weatherResp with
        | none =>
            (HResult.serverError "Open-Meteo API error",
             [PCall.geocode, PCall.overpass, PCall.climate])
        | some w =>
            let obs := truncObstacles (processElements op.elements)
            (HResult.ok
              ⟨selectBoundary c.geojson c.boundingbox, obs.1, obs.2.1, obs.2.2,
               processWeather w.daily⟩,
             [PCall.geocode, PCall.overpass, PCall.climate])

/-! Specification-side definitions, stated independently of the
imperative folds above, used to compare the handler's behaviour with the
specification's wording. -/

/-- The non-null values of one field that belong to one calendar month,
read directly off the index-aligned (date, value) pairs: the month bucket
of the specification. -/
def nonNullIn (m : Fin 12) (pairs : List (DateT × Option ℚ)) : List ℚ :=
  pairs.filterMap (fun p => if p.1.month = m then p.2 else none)

/-- The arithmetic mean demanded by the specification: the mean of the
collected values, or 0 when none were collected. -/
def specMean (vs : List ℚ) : JRes :=
  if vs = [] then JRes.rnum 0 else JRes.rnum (vs.sum / vs.length)

/-- Modelled from the spec: an element has a resolvable coordinate pair
when a direct point or a center supplies both latitude and longitude
(presence, with no condition on the value). -/
def resolvableSpec (e : Element) : Bool :=
  (e.lat <|> e.center.map Center.lat).isSome && (e.lon <|> e.center.map Center.lon).isSome

/-- The building-tag check of the cascade, read off one element:
element.tags?.building is truthy. -/
def tagB (e : Element) : Bool := truthyS (e.tags.bind Tags.building)

/-- element.tags?.natural === "tree". -/
def tagT (e : Element) : Bool := (e.tags.bind Tags.natural) == some "tree"

/-- element.tags?.power === "pole". -/
def tagP (e : Element) : Bool := (e.tags.bind Tags.power) == some "pole"

/-- Both JavaScript-resolved coordinates are truthy, i.e. the element
passes the early-return coordinate guard. -/
def coordsOk (e : Element) : Bool := truthyN (rLat e) && truthyN (rLon e)

/-- The building projection of the classification, for relating the
single-pass fold to per-category filters. -/
def cB (e : Element) : Option Feat :=
  match classify e with
  | some (Cat.building, la, lo) => some ⟨la, lo⟩
  | _ => none

/-- The tree projection of the classification. -/
def cT (e : Element) : Option Feat :=
  match classify e with
  | some (Cat.tree, la, lo) => some ⟨la, lo⟩
  | _ => none

/-- The pole projection of the classification. -/
def cP (e : Element) : Option Feat :=
  match classify e with
  | some (Cat.pole, la, lo) => some ⟨la, lo⟩
  | _ => none

/-- Claim C3: when the geocoder supplies no polygon geometry, the assembled
boundary is the synthesized rectangle: a closed polygon of exactly five
coordinate pairs, first equal to last, in the fixed order (west, south),
(east, south), (east, north), (west, north), (west, south), taken from the
bounding box fields; a present geometry is used unchanged. -/
theorem boundary_fallback_closed_rectangle :
    ∀ bb : BBox,
      selectBoundary none bb = Sum.inr (fallbackPolygon bb) ∧
      (fallbackPolygon bb).length = 5 ∧
      (fallbackPolygon bb).head? = some (bb.west, bb.south) ∧
      (fallbackPolygon bb).getLast? = some (bb.west, bb.south) ∧
      fallbackPolygon bb =
        [(bb.west, bb.south), (bb.east, bb.south), (bb.east, bb.north),
         (bb.west, bb.north), (bb.west, bb.south)] ∧
      ∀ g : GeoJson, selectBoundary (some g) bb = Sum.inl g :=
  fun _ => ⟨rfl, rfl, rfl, rfl, rfl, fun _ => rfl⟩

/-- Claim C4: whatever the daily series (including an absent one), the
weather output has exactly twelve entries, one per month name, in fixed
calendar order January through December. -/
theorem weather_always_twelve_months :
    ∀ daily : Option DailyBlock,
      (processWeather daily).length = 12 ∧
      (processWeather daily).map MonthlyOut.month = monthNames :=
  fun _ => ⟨rfl, rfl⟩

/-- Claim C9 counterexample: at a concrete bounding box, the composite
query contains no way clause for trees or poles, so it does not request
area features for all three categories as the claim states. -/
theorem overpass_query_no_area_tree_pole_counterexample :
    ((buildQuery ⟨50, 51, 0, 1⟩).clauses.filter
      (fun c => c.kind == EKind.way &&
        (c.filter == TagFilter.tagEq "natural" "tree" ||
         c.filter == TagFilter.tagEq "power" "pole"))) = [] := by decide

/-- Claim C9 as amended: the composite query requests, within the bounding
box interpolated in the order (south, west, north, east), point and area
features tagged building, but only point features tagged natural=tree and
power=pole, with out center set. -/
theorem overpass_query_contents :
    ∀ bb : BBox,
      (buildQuery bb).clauses.map (fun c => (c.kind, c.filter)) =
        [(EKind.node, TagFilter.hasTag "building"),
         (EKind.way, TagFilter.hasTag "building"),
         (EKind.node, TagFilter.tagEq "natural" "tree"),
         (EKind.node, TagFilter.tagEq "power" "pole")] ∧
      (buildQuery bb).clauses.map (fun c => (c.south, c.west, c.north, c.east)) =
        List.replicate 4 (bb.south, bb.west, bb.north, bb.east) ∧
      (buildQuery bb).outCenter = true :=
  fun _ => ⟨rfl, rfl, rfl⟩

/-- Claim C5 counterexample: a whitespace-only postcode is blank after
trimming, yet the handler does not return 400 and does issue the geocoding
call (the validation checks only JavaScript falsiness, which a nonempty
whitespace string passes). -/
theorem blank_postcode_not_rejected_counterexample :
    (" ").toList.all Char.isWhitespace = true ∧
    handle (some " ") ⟨none, none, none⟩ =
      (HResult.serverError "Nominatim API error", [PCall.geocode]) := by
  exact ⟨by decide, rfl⟩

/-- Claim C5 as amended: a request whose postcode is absent or exactly the
empty string gets an immediate 400 with an error message and no provider
call; whitespace-only postcodes pass the validation. -/
theorem empty_postcode_rejected_no_calls :
    ∀ env : Env,
      handle none env = (HResult.badRequest "Postcode is required", []) ∧
      handle (some "") env = (HResult.badRequest "Postcode is required", []) :=
  fun _ => ⟨rfl, rfl⟩

/-- Claim C6: the handler answers 404 exactly when the geocoder responded
successfully with the empty candidate array, and in that case it has issued
only the geocoding call; in particular a geocoder transport failure (a none
response) never produces the not-found outcome. -/
theorem notfound_iff_zero_candidates :
    ∀ (post : Option String) (env : Env),
      ((handle post env).1.is404 = true ↔
        blankPost post = false ∧ env.geocodeResp = some []) ∧
      ((handle post env).1.is404 = true →
        handle post env = (HResult.notFound "Postcode not found", [PCall.geocode])) := by
  intro post env
  obtain ⟨g, o, w⟩ := env
  cases hb : blankPost post with
  | true => simp [handle, hb, HResult.is404]
  | false =>
    cases g with
    | none => simp [handle, hb, HResult.is404]
    | some l =>
      cases l with
      | nil => simp [handle, hb, HResult.is404]
      | cons c rest =>
        cases o with
        | none => simp [handle, hb, HResult.is404]
        | some op =>
          cases w with
          | none => simp [handle, hb, HResult.is404]
          | some wp => simp [handle, hb, HResult.is404]

/-- Witness for the 404 characterization at a concrete request. -/
theorem notfound_iff_zero_candidates_witness :
    (handle (some "SW1A 1AA") ⟨some [], none, none⟩).1.is404 = true ∧
    handle (some "SW1A 1AA") ⟨some [], none, none⟩ =
      (HResult.notFound "Postcode not found", [PCall.geocode]) := by
  have h := notfound_iff_zero_candidates (some "SW1A 1AA") ⟨some [], none, none⟩
  have h404 : (handle (some "SW1A 1AA") ⟨some [], none, none⟩).1.is404 = true :=
    h.1.mpr ⟨by decide, rfl⟩
  exact ⟨h404, h.2 h404⟩

/-- Claim C10: when all three providers respond successfully but the daily
series is empty or the daily or time structure is absent, the handler
raises no error and returns the 200 envelope whose weather array holds
twelve months with all three fields 0. -/
theorem empty_series_yields_zero_months :
    ∀ (post : Option String) (env : Env) (c : Candidate) (rest : List Candidate)
      (op : OverpassPayload) (w : WeatherPayload),
      blankPost post = false →
      env.geocodeResp = some (c :: rest) →
      env.overpassResp = some op →
      env.weatherResp = some w →
      (w.daily = none ∨
        ∃ db : DailyBlock, w.daily = some db ∧ (db.time = none ∨ db.time = some [])) →
      ∃ r : AnalysisResult,
        handle post env = (HResult.ok r, [PCall.geocode, PCall.overpass, PCall.climate]) ∧
        r.weather = (List.finRange 12).map
          (fun m => ⟨monthName m, JRes.rnum 0, JRes.rnum 0, JRes.rnum 0⟩) := by
  intro post env c rest op w hb hg ho hw hdaily
  obtain ⟨g, o, wr⟩ := env
  simp only at hg ho hw
  subst hg; subst ho; subst hw
  have hh : handle post ⟨some (c :: rest), some op, some w⟩ =
      (HResult.ok
        ⟨selectBoundary c.geojson c.boundingbox,
         (truncObstacles (processElements op.elements)).1,
         (truncObstacles (processElements op.elements)).2.1,
         (truncObstacles (processElements op.elements)).2.2,
         processWeather w.daily⟩,
       [PCall.geocode, PCall.overpass, PCall.climate]) := by
    simp [handle, hb]
  refine ⟨_, hh, ?_⟩
  show processWeather w.daily = _
  rcases hdaily with h | ⟨db, hdb, ht | ht⟩
  · rw [h]; rfl
  · rw [hdb]; obtain ⟨t, a1, a2, a3⟩ := db; simp only at ht; subst ht; rfl
  · rw [hdb]; obtain ⟨t, a1, a2, a3⟩ := db; simp only at ht; subst ht; rfl

/-- Witness for the empty-series claim at a concrete environment. -/
theorem empty_series_yields_zero_months_witness :
    ∃ r : AnalysisResult,
      handle (some "SW1A 1AA")
          ⟨some [⟨51, 0, ⟨50, 51, 0, 1⟩, none⟩], some ⟨none⟩, some ⟨none⟩⟩ =
        (HResult.ok r, [PCall.geocode, PCall.overpass, PCall.climate]) ∧
      r.weather = (List.finRange 12).map
        (fun m => ⟨monthName m, JRes.rnum 0, JRes.rnum 0, JRes.rnum 0⟩) :=
  empty_series_yields_zero_months (some "SW1A 1AA")
    ⟨some [⟨51, 0, ⟨50, 51, 0, 1⟩, none⟩], some ⟨none⟩, some ⟨none⟩⟩
    ⟨51, 0, ⟨50, 51, 0, 1⟩, none⟩ [] ⟨none⟩ ⟨none⟩
    (by decide) rfl rfl rfl (Or.inl rfl)

/-- A concrete daily series whose date index has two January days while the
temperature array holds a single value: the second temperature access is
undefined. -/
def dbC7 : DailyBlock :=
  ⟨some [⟨2024, 0⟩, ⟨2024, 0⟩], [some 5], [some 1, some 2], [some 3600, some 3600]⟩

/-- Claim C7: on a day present in the date index whose temperature is
absent from the field array, the strict null guard lets undefined through,
so the January temperature average is NaN instead of the mean 5 of the
remaining non-null values demanded by the specification; the other two
fields of the same days still average normally. -/
theorem undefined_field_value_poisons_average :
    (processWeather (some dbC7)).head? =
      some ⟨"January", JRes.rnan, JRes.rnum (3 / 2), JRes.rnum 1⟩ ∧
    specMean (nonNullIn 0 (((dbC7.time).getD []).zip dbC7.temperature_2m_mean)) =
      JRes.rnum 5 := by
  constructor
  · have h1 : (processWeather (some dbC7)).head? =
        some ⟨"January", avgJS [Pushed.pnum 5, Pushed.pbad],
          avgJS [Pushed.pnum 1, Pushed.pnum 2],
          avgJS [Pushed.pnum (3600 / 3600), Pushed.pnum (3600 / 3600)]⟩ := rfl
    rw [h1]
    norm_num [avgJS, sumJS, addJS, divJS]
  · have h2 : nonNullIn 0 (((dbC7.time).getD []).zip dbC7.temperature_2m_mean) = [5] := rfl
    rw [h2]
    norm_num [specMean]

/-- The single-pass fold over the elements splits into three independent
per-category filters, each preserving provider emission order. -/
lemma foldl_pushFeat :
    ∀ (l : List Element) (b t p : List Feat),
      l.foldl pushFeat (b, t, p) =
        (b ++ l.filterMap cB, t ++ l.filterMap cT, p ++ l.filterMap cP) := by
  intro l
  induction l with
  | nil => intro b t p; simp
  | cons e l ih =>
    intro b t p
    rw [List.foldl_cons]
    rcases hc : classify e with _ | ⟨cat, la, lo⟩
    · simp [pushFeat, hc, cB, cT, cP, ih, List.filterMap_cons]
    · cases cat <;>
        simp [pushFeat, hc, cB, cT, cP, ih, List.filterMap_cons, List.append_assoc]

/-- The classification characterized extensionally: an element maps to a
category with its resolved coordinates exactly when both resolved
coordinates are present and nonzero and the tag cascade selects that
category. -/
lemma classify_some_iff (e : Element) (c : Cat) (la lo : ℚ) :
    classify e = some (c, la, lo) ↔
      rLat e = some la ∧ rLon e = some lo ∧ la ≠ 0 ∧ lo ≠ 0 ∧
        tagCascade e.tags = some c := by
  rcases hla : rLat e with _ | la2
  · simp [classify, hla]
  · rcases hlo : rLon e with _ | lo2
    · simp [classify, hla, hlo]
    · simp only [classify, hla, hlo]
      by_cases hz : la2 = 0 ∨ lo2 = 0
      · rw [if_pos hz]
        constructor
        · intro h; exact absurd h (by simp)
        · rintro ⟨h1, h2, h3, h4, _⟩
          rcases hz with hz | hz
          · exact absurd ((Option.some.inj h1) ▸ hz) h3
          · exact absurd ((Option.some.inj h2) ▸ hz) h4
      · rw [if_neg hz]
        push_neg at hz
        obtain ⟨h1, h2⟩ := hz
        constructor
        · intro h
          obtain ⟨c2, hc2, hfc⟩ := Option.map_eq_some'.mp h
          simp only [Prod.mk.injEq] at hfc
          obtain ⟨rfl, rfl, rfl⟩ := hfc
          exact ⟨rfl, rfl, h1, h2, hc2⟩
        · rintro ⟨ha, hb, _, _, h5⟩
          obtain rfl : la2 = la := Option.some.inj ha
          obtain rfl : lo2 = lo := Option.some.inj hb
          rw [h5]; rfl

/-- The ordered, exclusive, first-match-wins reading of the cascading tag
conditionals. -/
lemma tagCascade_cases (tg : Tags) :
    (tagCascade (some tg) = some Cat.building ↔ truthyS tg.building = true) ∧
    (tagCascade (some tg) = some Cat.tree ↔
      truthyS tg.building = false ∧ tg.natural = some "tree") ∧
    (tagCascade (some tg) = some Cat.pole ↔
      truthyS tg.building = false ∧ tg.natural ≠ some "tree" ∧
        tg.power = some "pole") ∧
    (tagCascade (some tg) = none ↔
      truthyS tg.building = false ∧ tg.natural ≠ some "tree" ∧
        tg.power ≠ some "pole") := by
  by_cases hb2 : truthyS tg.building = true
  · simp [tagCascade, hb2]
  · by_cases hn : tg.natural = some "tree"
    · simp [tagCascade, hb2, hn]
    · by_cases hp : tg.power = some "pole"
      · simp [tagCascade, hb2, hn, hp]
      · simp [tagCascade, hb2, hn, hp]

/-- Claim C2: the output obstacle lists are the per-category filters of the
element stream, each truncated to its first 100 classified elements in
emission order and hence of length at most 100; classification is a
partition (at most one category per element), characterized by the
coordinate guard plus the ordered, exclusive first-match tag cascade
(building tag truthy, else natural=tree, else power=pole, else
discarded). -/
theorem classification_partition_and_truncation :
    ∀ l : List Element,
      truncObstacles (processElements (some l)) =
        ((l.filterMap cB).take 100, (l.filterMap cT).take 100,
         (l.filterMap cP).take 100) ∧
      (truncObstacles (processElements (some l))).1.length ≤ 100 ∧
      (truncObstacles (processElements (some l))).2.1.length ≤ 100 ∧
      (truncObstacles (processElements (some l))).2.2.length ≤ 100 ∧
      (∀ e : Element,
        (cB e).isSome.toNat + (cT e).isSome.toNat + (cP e).isSome.toNat ≤ 1) ∧
      (∀ (e : Element) (c : Cat) (la lo : ℚ),
        classify e = some (c, la, lo) ↔
          rLat e = some la ∧ rLon e = some lo ∧ la ≠ 0 ∧ lo ≠ 0 ∧
            tagCascade e.tags = some c) ∧
      (∀ tg : Tags,
        (tagCascade (some tg) = some Cat.building ↔ truthyS tg.building = true) ∧
        (tagCascade (some tg) = some Cat.tree ↔
          truthyS tg.building = false ∧ tg.natural = some "tree") ∧
        (tagCascade (some tg) = some Cat.pole ↔
          truthyS tg.building = false ∧ tg.natural ≠ some "tree" ∧
            tg.power = some "pole") ∧
        (tagCascade (some tg) = none ↔
          truthyS tg.building = false ∧ tg.natural ≠ some "tree" ∧
            tg.power ≠ some "pole")) := by
  intro l
  refine ⟨?_, ?_, ?_, ?_, ?_, classify_some_iff, tagCascade_cases⟩
  · simp [truncObstacles, processElements, foldl_pushFeat]
  · simp [truncObstacles, processElements, foldl_pushFeat, List.length_take]
  · simp [truncObstacles, processElements, foldl_pushFeat, List.length_take]
  · simp [truncObstacles, processElements, foldl_pushFeat, List.length_take]
  · intro e
    rcases hc : classify e with _ | ⟨cat, la, lo⟩
    · simp [cB, cT, cP, hc]
    · cases cat <;> simp [cB, cT, cP, hc]

/-- Witness for the classification theorem at a concrete element list. -/
theorem classification_partition_and_truncation_witness :
    truncObstacles (processElements (some
        [⟨some 51, some 1, none, some ⟨some "yes", none, none⟩⟩,
         ⟨some 51, some 1, none, some ⟨none, some "tree", none⟩⟩])) =
      (([⟨some 51, some 1, none, some ⟨some "yes", none, none⟩⟩,
         ⟨some 51, some 1, none, some ⟨none, some "tree", none⟩⟩].filterMap cB).take 100,
       ([⟨some 51, some 1, none, some ⟨some "yes", none, none⟩⟩,
         ⟨some 51, some 1, none, some ⟨none, some "tree", none⟩⟩].filterMap cT).take 100,
       ([⟨some 51, some 1, none, some ⟨some "yes", none, none⟩⟩,
         ⟨some 51, some 1, none, some ⟨none, some "tree", none⟩⟩].filterMap cP).take 100) :=
  (classification_partition_and_truncation
    [⟨some 51, some 1, none, some ⟨some "yes", none, none⟩⟩,
     ⟨some 51, some 1, none, some ⟨none, some "tree", none⟩⟩]).1

/-- Claim C8 counterexample: an element at longitude 0 (the Greenwich
meridian) with a direct point coordinate pair and a building tag has
resolvable coordinates in the specification sense, yet the handler
discards it, because the falsiness checks treat a zero coordinate as
missing. -/
theorem zero_longitude_discarded_counterexample :
    resolvableSpec ⟨some 51, some 0, none, some ⟨some "yes", none, none⟩⟩ = true ∧
    tagB ⟨some 51, some 0, none, some ⟨some "yes", none, none⟩⟩ = true ∧
    classify ⟨some 51, some 0, none, some ⟨some "yes", none, none⟩⟩ = none := by
  refine ⟨by decide, by decide, by decide⟩

/-- Claim C8 as amended: an element is discarded for coordinates exactly
when its JavaScript-resolved latitude or longitude is falsy (absent or
zero); resolution takes the direct point value when it is truthy and falls
back to the center value otherwise; an element whose two resolved
coordinates are truthy is classified exactly when the tag cascade
matches. -/
theorem coordinate_discard_iff_falsy :
    ∀ e : Element,
      ((classify e).isSome =
        (truthyN (rLat e) && truthyN (rLon e) && (tagCascade e.tags).isSome)) ∧
      (truthyN e.lat = true → rLat e = e.lat) ∧
      (truthyN e.lat = false → rLat e = e.center.map Center.lat) ∧
      (truthyN e.lon = true → rLon e = e.lon) ∧
      (truthyN e.lon = false → rLon e = e.center.map Center.lon) := by
  intro e
  refine ⟨?_, ?_, ?_, ?_, ?_⟩
  · rcases hla : rLat e with _ | la
    · simp [classify, hla, truthyN]
    · rcases hlo : rLon e with _ | lo
      · simp [classify, hla, hlo, truthyN]
      · by_cases hz : la = 0 ∨ lo = 0
        · rw [show classify e = none by simp only [classify, hla, hlo]; rw [if_pos hz]]
          rcases hz with rfl | rfl <;> simp [truthyN]
        · push_neg at hz
          obtain ⟨h1, h2⟩ := hz
          simp only [classify, hla, hlo]
          rw [if_neg (by push_neg; exact ⟨h1, h2⟩)]
          simp [truthyN, h1, h2]
  · intro h; simp [rLat, jsOrN, h]
  · intro h; simp [rLat, jsOrN, h]
  · intro h; simp [rLon, jsOrN, h]
  · intro h; simp [rLon, jsOrN, h]

/-- Witness for the coordinate-resolution theorem at concrete elements. -/
theorem coordinate_discard_iff_falsy_witness :
    truthyN (Element.lat ⟨some 51, none, some ⟨1, 2⟩, none⟩) = true ∧
    rLat ⟨some 51, none, some ⟨1, 2⟩, none⟩ =
      Element.lat ⟨some 51, none, some ⟨1, 2⟩, none⟩ ∧
    truthyN (Element.lon ⟨some 51, none, some ⟨1, 2⟩, none⟩) = false ∧
    rLon ⟨some 51, none, some ⟨1, 2⟩, none⟩ =
      (Element.center ⟨some 51, none, some ⟨1, 2⟩, none⟩).map Center.lon :=
  ⟨by decide,
   (coordinate_discard_iff_falsy ⟨some 51, none, some ⟨1, 2⟩, none⟩).2.1 (by decide),
   by decide,
   (coordinate_discard_iff_falsy ⟨some 51, none, some ⟨1, 2⟩, none⟩).2.2.2.2 (by decide)⟩

/-- When the temperature array covers the date index, the temperature
bucket of a month collects exactly the non-null temperatures of the days
of that month, in order, after whatever the accumulator already held. -/
lemma collect_temp :
    ∀ (ds : List DateT) (T P S : List (Option ℚ)) (acc : Bkts) (m : Fin 12),
      ds.length ≤ T.length →
      ((collect ds T P S acc) m).temp =
        (acc m).temp ++ (nonNullIn m (ds.zip T)).map Pushed.pnum := by
  intro ds
  induction ds with
  | nil => intro T P S acc m h; simp [collect, nonNullIn]
  | cons d ds ih =>
    intro T P S acc m h
    cases T with
    | nil => simp at h
    | cons t T2 =>
      have h2 : ds.length ≤ T2.length := by simpa using h
      rw [collect]
      simp only [List.tail_cons]
      rw [ih T2 P.tail S.tail _ m h2]
      by_cases hm : m = d.month
      · subst hm
        cases t with
        | none =>
          simp [stepDay, jsHead, pushVal, nonNullIn, List.filterMap_cons]
        | some q =>
          simp [stepDay, jsHead, pushVal, nonNullIn, List.filterMap_cons,
            List.append_assoc]
      · have hm2 : ¬ d.month = m := fun hh => hm hh.symm
        simp [stepDay, hm, hm2, nonNullIn, List.filterMap_cons]

/-- The precipitation analogue of the temperature bucket lemma. -/
lemma collect_precip :
    ∀ (ds : List DateT) (T P S : List (Option ℚ)) (acc : Bkts) (m : Fin 12),
      ds.length ≤ P.length →
      ((collect ds T P S acc) m).precip =
        (acc m).precip ++ (nonNullIn m (ds.zip P)).map Pushed.pnum := by
  intro ds
  induction ds with
  | nil => intro T P S acc m h; simp [collect, nonNullIn]
  | cons d ds ih =>
    intro T P S acc m h
    cases P with
    | nil => simp at h
    | cons p P2 =>
      have h2 : ds.length ≤ P2.length := by simpa using h
      rw [collect]
      simp only [List.tail_cons]
      rw [ih T.tail P2 S.tail _ m h2]
      by_cases hm : m = d.month
      · subst hm
        cases p with
        | none =>
          simp [stepDay, jsHead, pushVal, nonNullIn, List.filterMap_cons]
        | some q =>
          simp [stepDay, jsHead, pushVal, nonNullIn, List.filterMap_cons,
            List.append_assoc]
      · have hm2 : ¬ d.month = m := fun hh => hm hh.symm
        simp [stepDay, hm, hm2, nonNullIn, List.filterMap_cons]

/-- The sunshine analogue: values are divided by 3600 before insertion. -/
lemma collect_sun :
    ∀ (ds : List DateT) (T P S : List (Option ℚ)) (acc : Bkts) (m : Fin 12),
      ds.length ≤ S.length →
      ((collect ds T P S acc) m).sun =
        (acc m).sun ++
          (nonNullIn m (ds.zip S)).map (fun q => Pushed.pnum (q / 3600)) := by
  intro ds
  induction ds with
  | nil => intro T P S acc m h; simp [collect, nonNullIn]
  | cons d ds ih =>
    intro T P S acc m h
    cases S with
    | nil => simp at h
    | cons s S2 =>
      have h2 : ds.length ≤ S2.length := by simpa using h
      rw [collect]
      simp only [List.tail_cons]
      rw [ih T.tail P.tail S2 _ m h2]
      by_cases hm : m = d.month
      · subst hm
        cases s with
        | none =>
          simp [stepDay, jsHead, pushSun, nonNullIn, List.filterMap_cons]
        | some q =>
          simp [stepDay, jsHead, pushSun, nonNullIn, List.filterMap_cons,
            List.append_assoc]
      · have hm2 : ¬ d.month = m := fun hh => hm hh.symm
        simp [stepDay, hm, hm2, nonNullIn, List.filterMap_cons]

/-- Summing a bucket of plain numbers with the JavaScript reduce is the
rational sum. -/
lemma sumJS_map_pnum :
    ∀ (vs : List ℚ) (a : ℚ),
      (vs.map Pushed.pnum).foldl addJS (JRes.rnum a) = JRes.rnum (a + vs.sum) := by
  intro vs
  induction vs with
  | nil => intro a; simp [sumJS]
  | cons q vs ih =>
    intro a
    simp only [List.map_cons, List.foldl_cons, addJS, List.sum_cons]
    rw [ih]
    ring_nf

/-- Averaging a bucket of plain numbers gives the specification mean:
the arithmetic mean of the values, or 0 for an empty bucket. -/
lemma avgJS_map_pnum (vs : List ℚ) : avgJS (vs.map Pushed.pnum) = specMean vs := by
  cases vs with
  | nil => simp [avgJS, specMean]
  | cons q vs =>
    simp only [avgJS, sumJS, specMean, List.length_map, List.length_cons]
    rw [sumJS_map_pnum]
    simp [divJS]

/-- Claim C1: for an index-aligned daily series, every month's output entry
holds, for each of the three fields, the arithmetic mean of the non-null
values of the days of that month across all years (sunshine converted to
hours first), and 0 when that month collected no value for the field. -/
theorem monthly_average_is_mean_of_nonnull :
    ∀ (ds : List DateT) (T P S : List (Option ℚ)),
      ds.length ≤ T.length → ds.length ≤ P.length → ds.length ≤ S.length →
      processWeather (some ⟨some ds, T, P, S⟩) =
        (List.finRange 12).map (fun m =>
          ⟨monthName m,
           specMean (nonNullIn m (ds.zip T)),
           specMean (nonNullIn m (ds.zip P)),
           specMean ((nonNullIn m (ds.zip S)).map (fun q => q / 3600))⟩) := by
  intro ds T P S hT hP hS
  unfold processWeather
  congr 1
  funext m
  have hbk : bucketsOf (some ⟨some ds, T, P, S⟩) = collect ds T P S initB := rfl
  rw [hbk]
  have h1 := collect_temp ds T P S initB m hT
  have h2 := collect_precip ds T P S initB m hP
  have h3 := collect_sun ds T P S initB m hS
  simp only [initB, emptyBucket, List.nil_append] at h1 h2 h3
  rw [h1, h2, h3, avgJS_map_pnum, avgJS_map_pnum]
  have hsun : (nonNullIn m (ds.zip S)).map (fun q => Pushed.pnum (q / 3600)) =
      ((nonNullIn m (ds.zip S)).map (fun q => q / 3600)).map Pushed.pnum := by
    rw [List.map_map]; rfl
  rw [hsun, avgJS_map_pnum]

/-- Witness for the monthly-average theorem at a concrete three-day,
two-year series with one null temperature. -/
theorem monthly_average_is_mean_of_nonnull_witness :
    ([⟨2020, 0⟩, ⟨2021, 0⟩, (⟨2021, 1⟩ : DateT)] : List DateT).length ≤
        ([some 10, none, some 20] : List (Option ℚ)).length ∧
    processWeather (some ⟨some [⟨2020, 0⟩, ⟨2021, 0⟩, ⟨2021, 1⟩],
        [some 10, none, some 20], [some 1, some 2, some 3],
        [some 3600, some 7200, none]⟩) =
      (List.finRange 12).map (fun m =>
        ⟨monthName m,
         specMean (nonNullIn m
           (([⟨2020, 0⟩, ⟨2021, 0⟩, ⟨2021, 1⟩] : List DateT).zip
             [some 10, none, some 20])),
         specMean (nonNullIn m
           (([⟨2020, 0⟩, ⟨2021, 0⟩, ⟨2021, 1⟩] : List DateT).zip
             [some 1, some 2, some 3])),
         specMean ((nonNullIn m
           (([⟨2020, 0⟩, ⟨2021, 0⟩, ⟨2021, 1⟩] : List DateT).zip
             [some 3600, some 7200, none])).map (fun q => q / 3600))⟩) :=
  ⟨by decide,
   monthly_average_is_mean_of_nonnull
     [⟨2020, 0⟩, ⟨2021, 0⟩, ⟨2021, 1⟩]
     [some 10, none, some 20] [some 1, some 2, some 3] [some 3600, some 7200, none]
     (by decide) (by decide) (by decide)⟩

end GeoSunScan
